import Mathlib

/-!
# Shallow embedding of the `waveforms` front-end state logic

This file embeds the two stateful components of the repository that the
specification describes:

* `IntroRoute` (src/src/components/IntroRoute/IntroRoute.js): the
  scroll-driven step tracker.  Its state fields and the event handlers
  `handleScroll`, `handleIntersect`, `handleResize`,
  `handleUpdateAmplitude`, `handleUpdateFrequency` and
  `handleToggleAudibility` are translated as pure state-transition
  functions; browser inputs (bounding rectangles, window height, the
  values delivered by callbacks) become explicit arguments.

* `AvailableWidth` (src/src/components/AvailableWidth/AvailableWidth.js):
  the width observer.  Its lifecycle methods and the resize-observer
  callback are translated the same way.

JavaScript numbers standing for pixel geometry and times are modelled as
rationals (`Rat`); array indices as `Int` (JS `findIndex` / `indexOf`
return `-1` on failure).  Because `handleScroll` compares a *number*
(the index) against `this.state.currentStep` (a string step identifier)
with strict `!==`, and because indexing an array out of range yields
`undefined`, the field `currentStep` is modelled as a JavaScript value
`JsVal` that can be a number, a string, or `undefined`, and strict
equality `===` is modelled by `jsEq`.
-/

namespace Waveforms

/-- A step identifier (`IntroStep` in the source) is a string drawn from
the ordered array `INTRO_STEPS`. -/
abbrev StepId := String

/-- The JavaScript values that can flow into `currentStep`: a number
(from the bad comparison / never actually stored), a string step id, or
`undefined` (from out-of-range array indexing). -/
inductive JsVal where
  | num (n : Int)
  | str (s : String)
  | undef
  deriving DecidableEq, Repr

/-- JavaScript strict equality `===` restricted to the values we model:
values of different types are never strictly equal. -/
def jsEq : JsVal → JsVal → Bool
  | JsVal.num a, JsVal.num b => a == b
  | JsVal.str a, JsVal.str b => a == b
  | JsVal.undef, JsVal.undef => true
  | _, _ => false

/-- JavaScript array indexing `l[i]` with an `Int` index: out-of-range
(including `-1`) yields `undefined`. -/
def jsIndex (l : List StepId) (i : Int) : JsVal :=
  if i < 0 then JsVal.undef
  else
    match l.get? i.toNat with
    | some s => JsVal.str s
    | none => JsVal.undef

/-- `Array.prototype.findIndex` over the section bounding rectangles
with the predicate of `handleScroll`
(`section.getBoundingClientRect().bottom >= 0`): the index of the first
rectangle whose bottom is `>= 0`, and `-1` when there is none. -/
def findIndexJs (rects : List Rat) : Int :=
  match List.findIdx? (fun b => decide (0 ≤ b)) rects with
  | some n => (n : Int)
  | none => -1

/-- `Array.prototype.indexOf` on the step array (`INTRO_STEPS.indexOf(id)`):
first index holding `x`, and `-1` when `x` does not occur. -/
def strIndexOf (l : List StepId) (x : StepId) : Int :=
  match List.findIdx? (fun s => s == x) l with
  | some n => (n : Int)
  | none => -1

/-- The `State` of the `IntroRoute` component.  `shape` is never written
by any handler; `currentStep` is a `JsVal` as explained above. -/
structure IntroState where
  currentStep : JsVal
  windowHeight : Rat
  amplitude : Rat
  frequency : Rat
  shape : String
  userEnabledSound : Bool
  deriving DecidableEq, Repr

/-- `handleUpdateAmplitude = (val) => this.setState({ amplitude: val })`.
React's `setState` merges the given fields into the state, leaving the
others unchanged, which the record update captures. -/
def handleUpdateAmplitude (val : Rat) (s : IntroState) : IntroState :=
  { s with amplitude := val }

/-- `handleUpdateFrequency = (val) => this.setState({ frequency: val })`. -/
def handleUpdateFrequency (val : Rat) (s : IntroState) : IntroState :=
  { s with frequency := val }

/-- `handleToggleAudibility = (val) => this.setState({ userEnabledSound: val })`. -/
def handleToggleAudibility (val : Bool) (s : IntroState) : IntroState :=
  { s with userEnabledSound := val }

/-- The body of the debounced `handleResize`:
`this.setState({ windowHeight: window.innerHeight })`.  The current
`window.innerHeight` is the argument `newWindowHeight`. -/
def handleResize (newWindowHeight : Rat) (s : IntroState) : IntroState :=
  { s with windowHeight := newWindowHeight }

/-- The body of the debounced `handleScroll`.  `rects` holds the bottoms
of `this.sectionRefs[i].getBoundingClientRect()`, in section order.

```js
const activeSectionIndex = this.sectionRefs.findIndex(
  section => section.getBoundingClientRect().bottom >= 0
);
if (activeSectionIndex !== this.state.currentStep) {
  this.setState({ currentStep: INTRO_STEPS[activeSectionIndex] });
}
```

The guard strictly compares the number `activeSectionIndex` with the
step value `this.state.currentStep`. -/
def handleScroll (introSteps : List StepId) (rects : List Rat)
    (s : IntroState) : IntroState :=
  let activeSectionIndex := findIndexJs rects
  if jsEq (JsVal.num activeSectionIndex) s.currentStep then s
  else { s with currentStep := jsIndex introSteps activeSectionIndex }

/-- The direction computed inside `handleIntersect`:
`id === this.state.currentStep ? 'forwards' : 'backwards'`. -/
def intersectDirection (id : StepId) (s : IntroState) : String :=
  if jsEq (JsVal.str id) s.currentStep then "forwards" else "backwards"

/-- `handleIntersect = (id, entry) => ...`:

```js
const intersectStepIndex = INTRO_STEPS.indexOf(id);
const direction = id === this.state.currentStep ? 'forwards' : 'backwards';
const nextStep =
  direction === 'forwards'
    ? INTRO_STEPS[intersectStepIndex + 1]
    : INTRO_STEPS[intersectStepIndex];
this.setState({ currentStep: nextStep });
```

(The source also computes `currentStepIndex = INTRO_STEPS.indexOf(this.state.currentStep)`
but never uses it; the `entry` argument is likewise unused.) -/
def handleIntersect (introSteps : List StepId) (id : StepId)
    (s : IntroState) : IntroState :=
  let intersectStepIndex := strIndexOf introSteps id
  let nextStep :=
    if intersectDirection id s = "forwards" then
      jsIndex introSteps (intersectStepIndex + 1)
    else
      jsIndex introSteps intersectStepIndex
  { s with currentStep := nextStep }

/-! ## The window event listeners of `IntroRoute`

`componentDidMount` registers `('resize', this.handleResize)` and
`('scroll', this.handleScroll)` on `window`; `componentWillUnmount`
removes the same two pairs.  A registration is keyed by the event type
together with the listener function, and the two handler functions are
unique to the component instance; registrations belonging to anyone
else are `other n`.  `addEventListener` is idempotent on an identical
(type, listener) pair, and `removeEventListener` removes the matching
registration when present. -/

/-- A `window` event-listener registration. -/
inductive WinListener where
  | resizeHandler
  | scrollHandler
  | other (n : Nat)
  deriving DecidableEq, Repr

/-- `window.addEventListener`: a no-op when the identical (type,
listener) pair is already registered, otherwise appends it. -/
def addEventListener (t : WinListener) (ls : List WinListener) : List WinListener :=
  if t ∈ ls then ls else ls ++ [t]

/-- `window.removeEventListener`: removes the matching registration
(at most one exists, by idempotence of registration). -/
def removeEventListener (t : WinListener) (ls : List WinListener) : List WinListener :=
  ls.erase t

/-- `IntroRoute.componentDidMount`

```js
window.addEventListener('resize', this.handleResize);
window.addEventListener('scroll', this.handleScroll);
``` -/
def introDidMountListeners (ls : List WinListener) : List WinListener :=
  addEventListener WinListener.scrollHandler
    (addEventListener WinListener.resizeHandler ls)

/-- `IntroRoute.componentWillUnmount`

```js
window.removeEventListener('resize', this.handleResize);
window.removeEventListener('scroll', this.handleScroll);
``` -/
def introWillUnmountListeners (ls : List WinListener) : List WinListener :=
  removeEventListener WinListener.scrollHandler
    (removeEventListener WinListener.resizeHandler ls)

/-! ## The `AvailableWidth` component -/

/-- The `State` of `AvailableWidth` (`{ width?: number }`), together
with whether its `ResizeObserver` is currently attached
(`this.observer.observe(this.elem)` ... `this.observer.disconnect()`). -/
structure AWState where
  width : Option Rat
  observerConnected : Bool
  deriving DecidableEq, Repr

/-- The initial state: `state = {}`, so `width` is `undefined` and no
observer exists yet. -/
def AWState.init : AWState :=
  { width := none, observerConnected := false }

/-- The `ResizeObserver` callback
`([entry]) => this.setState({ width: entry.contentRect.width })`;
`w` is `entry.contentRect.width`. -/
def observerCallbackAW (w : Rat) (s : AWState) : AWState :=
  { s with width := some w }

/-- `AvailableWidth.componentDidMount`: immediately measures
(`this.setState({ width: this.elem.getBoundingClientRect().width })`,
the measured value being `measured`), then constructs the
`ResizeObserver` and calls `this.observer.observe(this.elem)`. -/
def componentDidMountAW (measured : Rat) (s : AWState) : AWState :=
  { s with width := some measured, observerConnected := true }

/-- `AvailableWidth.componentWillUnmount`: `this.observer.disconnect()`. -/
def componentWillUnmountAW (s : AWState) : AWState :=
  { s with observerConnected := false }

/-- Environment model of the resize-observer: the browser invokes the
callback only while the observer is attached, so a width report reaches
`setState` only when `observerConnected` is set. -/
def deliverResizeAW (w : Rat) (s : AWState) : AWState :=
  if s.observerConnected then observerCallbackAW w s else s

/-- What `AvailableWidth.render` puts inside its `<div>`:

```js
{width !== undefined && children(width)}
```

`empty` models the `false` branch (no child content); `children w`
models invoking the children function at `w`. -/
inductive AWRender where
  | empty
  | children (w : Rat)
  deriving DecidableEq, Repr

/-- `AvailableWidth.render`, as a function of the state. -/
def renderAW (s : AWState) : AWRender :=
  match s.width with
  | none => AWRender.empty
  | some w => AWRender.children w

/-- The events that can reach a mounted `AvailableWidth` instance:
resize-observer reports and the unmount itself. -/
inductive AWEvent where
  | observe (w : Rat)
  | unmount
  deriving DecidableEq, Repr

/-- One event applied to the `AvailableWidth` state. -/
def stepAW (s : AWState) (e : AWEvent) : AWState :=
  match e with
  | AWEvent.observe w => deliverResizeAW w s
  | AWEvent.unmount => componentWillUnmountAW s

/-- A whole sequence of post-mount events applied in order. -/
def runAW (evs : List AWEvent) (s : AWState) : AWState :=
  evs.foldl stepAW s

/-! ## The debounce utility

Modelled from the spec: the `debounce` helper is imported from
`../../utils`, which is not among the provided source files.  The spec
describes it as "coalescing rapid repeated events into one delayed
invocation" with a 500ms interval: each raw event schedules the handler
`wait` milliseconds later, and a newer raw event cancels the pending
invocation.  Hence the handler body runs at time `t + wait` exactly for
those event times `t` that are followed by no further event within the
open window `(t, t + wait)`. -/

/-- Modelled from the spec: the times at which a handler debounced with
interval `wait` actually executes its body, given the times of the raw
events.  (The `debounce` source itself is not under src/.) -/
def debounceFires (wait : Rat) (events : List Rat) : List Rat :=
  (events.filter
      (fun t => events.all (fun u => !(decide (t < u) && decide (u < t + wait))))).map
    (fun t => t + wait)

/-- The debounce interval both `handleResize` and `handleScroll` are
constructed with (`debounce(..., 500)`). -/
def DEBOUNCE_WAIT_MS : Rat := 500

/-! ## Helper lemmas -/

/-- A concrete `IntroRoute` state used by the concrete theorems below;
only `currentStep` varies. -/
def sampleIntroState (c : JsVal) : IntroState :=
  { currentStep := c, windowHeight := 800, amplitude := 1, frequency := 1,
    shape := "sine", userEnabledSound := false }

theorem jsEq_num_of_not_num {n : Int} {v : JsVal}
    (h : ∀ m : Int, v ≠ JsVal.num m) : jsEq (JsVal.num n) v = false := by
  cases v with
  | num m => exact absurd rfl (h m)
  | str c => rfl
  | undef => rfl

theorem jsEq_str_eq_true_iff {c : StepId} {v : JsVal} :
    jsEq (JsVal.str c) v = true ↔ v = JsVal.str c := by
  cases v with
  | num m => simp [jsEq]
  | undef => simp [jsEq]
  | str d =>
    simp only [jsEq, beq_iff_eq, JsVal.str.injEq]
    exact eq_comm

theorem jsIndex_of_get? {l : List StepId} {k : Nat} {c : StepId}
    (h : l.get? k = some c) : jsIndex l ((k : Nat) : Int) = JsVal.str c := by
  unfold jsIndex
  rw [if_neg (by omega), Int.toNat_ofNat, h]

theorem strIndexOf_mem {l : List StepId} {x : StepId} (h : x ∈ l) :
    ∃ k : Nat, strIndexOf l x = (k : Int) ∧ l.get? k = some x := by
  have hs : (List.findIdx? (fun s => s == x) l).isSome := by
    rw [List.findIdx?_isSome]
    exact List.any_eq_true.mpr ⟨x, h, by simp⟩
  obtain ⟨k, hk⟩ := Option.isSome_iff_exists.mp hs
  refine ⟨k, ?_, ?_⟩
  · unfold strIndexOf
    rw [hk]
  · obtain ⟨hlt, hp, -⟩ := List.findIdx?_eq_some_iff_getElem.mp hk
    have hx : l[k] = x := by simpa using hp
    rw [List.get?_eq_getElem?, List.getElem?_eq_getElem hlt, hx]

theorem findIndexJs_eq_of_first {rects : List Rat} {i : Nat} {b : Rat}
    (hget : rects.get? i = some b) (hpos : 0 ≤ b)
    (hbefore : ∀ j bj, j < i → rects.get? j = some bj → bj < 0) :
    findIndexJs rects = (i : Int) := by
  rw [List.get?_eq_getElem?] at hget
  obtain ⟨hlt, hb⟩ := List.getElem?_eq_some.mp hget
  have hfind : List.findIdx? (fun x => decide (0 ≤ x)) rects = some i := by
    rw [List.findIdx?_eq_some_iff_getElem]
    refine ⟨hlt, by simp [hb, hpos], ?_⟩
    intro j hj
    have hjlt : j < rects.length := Nat.lt_trans hj hlt
    have hgj : rects.get? j = some rects[j] := by
      rw [List.get?_eq_getElem?, List.getElem?_eq_getElem hjlt]
    have hneg := hbefore j rects[j] hj hgj
    simp only [decide_eq_true_eq]
    exact fun hcon => absurd hcon (not_le.mpr hneg)
  unfold findIndexJs
  rw [hfind]

/-! ## Claims -/

/-- Claim C9: each of the setter handlers of `IntroRoute` updates exactly
one state field and leaves every other field unchanged:
`handleUpdateAmplitude` changes only `amplitude`, `handleUpdateFrequency`
only `frequency`, `handleToggleAudibility` only `userEnabledSound`, and
`handleResize` only `windowHeight`; in particular none of them changes
`currentStep` (nor `shape`). -/
theorem setters_update_exactly_one_field (v : Rat) (b : Bool) (s : IntroState) :
    (handleUpdateAmplitude v s).amplitude = v ∧
    (handleUpdateAmplitude v s).currentStep = s.currentStep ∧
    (handleUpdateAmplitude v s).frequency = s.frequency ∧
    (handleUpdateAmplitude v s).windowHeight = s.windowHeight ∧
    (handleUpdateAmplitude v s).shape = s.shape ∧
    (handleUpdateAmplitude v s).userEnabledSound = s.userEnabledSound ∧
    (handleUpdateFrequency v s).frequency = v ∧
    (handleUpdateFrequency v s).currentStep = s.currentStep ∧
    (handleUpdateFrequency v s).amplitude = s.amplitude ∧
    (handleUpdateFrequency v s).windowHeight = s.windowHeight ∧
    (handleUpdateFrequency v s).shape = s.shape ∧
    (handleUpdateFrequency v s).userEnabledSound = s.userEnabledSound ∧
    (handleToggleAudibility b s).userEnabledSound = b ∧
    (handleToggleAudibility b s).currentStep = s.currentStep ∧
    (handleToggleAudibility b s).amplitude = s.amplitude ∧
    (handleToggleAudibility b s).frequency = s.frequency ∧
    (handleToggleAudibility b s).windowHeight = s.windowHeight ∧
    (handleToggleAudibility b s).shape = s.shape ∧
    (handleResize v s).windowHeight = v ∧
    (handleResize v s).currentStep = s.currentStep ∧
    (handleResize v s).amplitude = s.amplitude ∧
    (handleResize v s).frequency = s.frequency ∧
    (handleResize v s).shape = s.shape ∧
    (handleResize v s).userEnabledSound = s.userEnabledSound :=
  ⟨rfl, rfl, rfl, rfl, rfl, rfl, rfl, rfl, rfl, rfl, rfl, rfl,
   rfl, rfl, rfl, rfl, rfl, rfl, rfl, rfl, rfl, rfl, rfl, rfl⟩

/-- Claim C1 (failing evaluation): the claimed invariant "`currentStep`
is always a member of `INTRO_STEPS`" breaks on the code.  With the step
array `["a", "b"]`: (i) when every section bottom is negative,
`handleScroll` gets `findIndex = -1`, its guard (comparing the number
`-1` with the string step via `!==`) passes, and it stores
`INTRO_STEPS[-1] = undefined`; (ii) when `handleIntersect` fires for the
last step `"b"` while `"b"` is current, the direction is `forwards` and
it stores `INTRO_STEPS[length] = undefined`.  `undefined` is not a
member of the step array. -/
theorem currentStep_can_leave_INTRO_STEPS :
    (handleScroll [("a"), ("b")] [-10, -5]
        (sampleIntroState (JsVal.str ("a")))).currentStep = JsVal.undef ∧
    (handleIntersect [("a"), ("b")] ("b")
        (sampleIntroState (JsVal.str ("b")))).currentStep = JsVal.undef ∧
    JsVal.undef ∉ ([("a"), ("b")].map JsVal.str) := by
  refine ⟨by decide, by decide, by decide⟩

/-- Claim C2 (failing evaluation): when `findIndex` returns `-1`,
`handleScroll` does not leave `currentStep` unchanged: the guard
`activeSectionIndex !== this.state.currentStep` compares a number with a
string, hence always passes, and `setState` stores
`INTRO_STEPS[-1] = undefined`.  (It does not crash: the transition is a
total function; but it is not a no-op.) -/
theorem handleScroll_noSection_overwrites_currentStep :
    findIndexJs [-3, -1] = -1 ∧
    (handleScroll [("a"), ("b")] [-3, -1]
        (sampleIntroState (JsVal.str ("a")))).currentStep = JsVal.undef ∧
    (handleScroll [("a"), ("b")] [-3, -1]
        (sampleIntroState (JsVal.str ("a")))).currentStep
      ≠ (sampleIntroState (JsVal.str ("a"))).currentStep := by
  refine ⟨by decide, by decide, by decide⟩

/-- Claim C3: for an intersection event reported with step identifier
`id` (a member of the step array), `handleIntersect` infers direction
`'forwards'` if and only if `id` equals the current step, and
`'backwards'` otherwise; in the forwards case the new current step is
the element of `INTRO_STEPS` immediately after `id` (whenever that
successor exists), and in the backwards case it is `id` itself. -/
theorem handleIntersect_direction_and_next (introSteps : List StepId)
    (id : StepId) (s : IntroState) (hmem : id ∈ introSteps) :
    (intersectDirection id s = "forwards" ↔ s.currentStep = JsVal.str id) ∧
    (s.currentStep ≠ JsVal.str id →
      (handleIntersect introSteps id s).currentStep = JsVal.str id) ∧
    (∀ nxt, s.currentStep = JsVal.str id →
      introSteps.get? ((strIndexOf introSteps id).toNat + 1) = some nxt →
      (handleIntersect introSteps id s).currentStep = JsVal.str nxt) := by
  obtain ⟨k, hk, hkget⟩ := strIndexOf_mem hmem
  refine ⟨?_, ?_, ?_⟩
  · unfold intersectDirection
    constructor
    · intro h
      by_cases hb : jsEq (JsVal.str id) s.currentStep = true
      · exact jsEq_str_eq_true_iff.mp hb
      · rw [if_neg fun hc => hb (by rw [hc])] at h
        exact absurd h (by decide)
    · intro h
      rw [if_pos (jsEq_str_eq_true_iff.mpr h)]
  · intro hne
    have hguard : jsEq (JsVal.str id) s.currentStep = false := by
      cases hb : jsEq (JsVal.str id) s.currentStep
      · rfl
      · exact absurd (jsEq_str_eq_true_iff.mp hb) hne
    unfold handleIntersect intersectDirection
    rw [hguard]
    simp only [Bool.false_eq_true, if_false, reduceIte, hk]
    exact jsIndex_of_get? hkget
  · intro nxt hcur hnxt
    have hguard : jsEq (JsVal.str id) s.currentStep = true :=
      jsEq_str_eq_true_iff.mpr hcur
    unfold handleIntersect intersectDirection
    rw [hguard]
    simp only [reduceIte, hk]
    rw [hk] at hnxt
    simp only [Int.toNat_ofNat] at hnxt
    have : ((k : Int) + 1) = ((k + 1 : Nat) : Int) := by push_cast; ring
    rw [this]
    exact jsIndex_of_get? hnxt

/-- Witness for C3 at a concrete input: steps `["a", "b"]`, a forwards
intersection for `"a"` while `"a"` is current advances to `"b"`, and a
backwards intersection for `"a"` while `"b"` is current selects `"a"`. -/
theorem handleIntersect_direction_and_next_witness :
    (handleIntersect [("a"), ("b")] ("a")
        (sampleIntroState (JsVal.str ("a")))).currentStep = JsVal.str ("b") ∧
    (handleIntersect [("a"), ("b")] ("a")
        (sampleIntroState (JsVal.str ("b")))).currentStep = JsVal.str ("a") :=
  ⟨(handleIntersect_direction_and_next [("a"), ("b")] ("a")
      (sampleIntroState (JsVal.str ("a"))) (by decide)).2.2 ("b") rfl (by decide),
   (handleIntersect_direction_and_next [("a"), ("b")] ("a")
      (sampleIntroState (JsVal.str ("b"))) (by decide)).2.1 (by decide)⟩

/-- Claim C4: on a debounced scroll event, `handleScroll` scans the
section rectangles in order, selects the first whose bottom is `≥ 0`,
and makes that section's step the current step (given the state holds a
genuine step value, i.e. not a number, which the guard would otherwise
compare equal). -/
theorem handleScroll_selects_first_visible (introSteps : List StepId)
    (rects : List Rat) (s : IntroState) (i : Nat) (b : Rat) (st : StepId)
    (hget : rects.get? i = some b) (hpos : 0 ≤ b)
    (hbefore : ∀ j bj, j < i → rects.get? j = some bj → bj < 0)
    (hstep : introSteps.get? i = some st)
    (hnum : ∀ m : Int, s.currentStep ≠ JsVal.num m) :
    findIndexJs rects = (i : Int) ∧
    (handleScroll introSteps rects s).currentStep = JsVal.str st := by
  have hfi : findIndexJs rects = (i : Int) :=
    findIndexJs_eq_of_first hget hpos hbefore
  refine ⟨hfi, ?_⟩
  simp only [handleScroll, hfi, jsEq_num_of_not_num hnum, Bool.false_eq_true,
    if_false, reduceIte]
  exact jsIndex_of_get? hstep

/-- Witness for C4 at a concrete input: rect bottoms `[-1, 5]` select
index 1, so step `"b"` becomes current. -/
theorem handleScroll_selects_first_visible_witness :
    findIndexJs [-1, 5] = (1 : Int) ∧
    (handleScroll [("a"), ("b")] [-1, 5]
        (sampleIntroState (JsVal.str ("a")))).currentStep = JsVal.str ("b") :=
  handleScroll_selects_first_visible [("a"), ("b")] [-1, 5]
    (sampleIntroState (JsVal.str ("a"))) 1 5 ("b") rfl (by norm_num)
    (fun j bj hj hg => by
      have hj0 : j = 0 := by omega
      subst hj0
      have hg2 : some (-1 : Rat) = some bj := hg
      cases hg2
      norm_num)
    rfl
    (fun m h => by simp [sampleIntroState] at h)

/-- Claim C10: the guard of `handleScroll` compares the numeric
`findIndex` result with the current step identifier; since no element of
the step array strictly equals its own numeric index (and the current
step is either a step string or `undefined`), the guard passes on every
invocation and the `setState` update is applied even when the computed
step already equals the current step. -/
theorem handleScroll_guard_always_passes (introSteps : List StepId)
    (rects : List Rat) (s : IntroState)
    (hno : ∀ k : Fin introSteps.length,
      jsEq (JsVal.str (introSteps.get k)) (JsVal.num ((k : Nat) : Int)) = false)
    (hcur : s.currentStep = JsVal.undef ∨
      ∃ st ∈ introSteps, s.currentStep = JsVal.str st) :
    jsEq (JsVal.num (findIndexJs rects)) s.currentStep = false ∧
    handleScroll introSteps rects s =
      { s with currentStep := jsIndex introSteps (findIndexJs rects) } := by
  have hguard : jsEq (JsVal.num (findIndexJs rects)) s.currentStep = false := by
    refine jsEq_num_of_not_num ?_
    intro m hm
    rcases hcur with h | ⟨st, -, h⟩ <;> rw [h] at hm <;> cases hm
  refine ⟨hguard, ?_⟩
  simp only [handleScroll, hguard, Bool.false_eq_true, if_false, reduceIte]

/-- Witness for C10 at a concrete input: with steps `["a", "b"]`, a
single rect bottom `5` and current step `"a"`, the guard passes and the
update is applied. -/
theorem handleScroll_guard_always_passes_witness :
    jsEq (JsVal.num (findIndexJs [5]))
      (sampleIntroState (JsVal.str ("a"))).currentStep = false ∧
    handleScroll [("a"), ("b")] [5] (sampleIntroState (JsVal.str ("a"))) =
      { sampleIntroState (JsVal.str ("a")) with
          currentStep := jsIndex [("a"), ("b")] (findIndexJs [5]) } :=
  handleScroll_guard_always_passes [("a"), ("b")] [5]
    (sampleIntroState (JsVal.str ("a"))) (by decide)
    (Or.inr ⟨("a"), by decide, rfl⟩)

/-- Claim C5: `AvailableWidth.render` produces no child content whenever
`state.width` is undefined, and once `width` is a number it renders
exactly `children(width)`; a width reported by the resize observer
updates `state.width` and the re-render shows the new width. -/
theorem availableWidth_render_behavior (s : AWState) (w : Rat) :
    (s.width = none → renderAW s = AWRender.empty) ∧
    (∀ v, s.width = some v → renderAW s = AWRender.children v) ∧
    (observerCallbackAW w s).width = some w ∧
    renderAW (observerCallbackAW w s) = AWRender.children w := by
  refine ⟨?_, ?_, rfl, rfl⟩
  · intro h
    unfold renderAW
    rw [h]
  · intro v h
    unfold renderAW
    rw [h]

/-- Witness for C5 at a concrete input: the initial state renders
nothing, and after an observer report of width 120 the render shows
`children 120`. -/
theorem availableWidth_render_behavior_witness :
    renderAW AWState.init = AWRender.empty ∧
    renderAW (observerCallbackAW 120 AWState.init) = AWRender.children 120 :=
  ⟨(availableWidth_render_behavior AWState.init 120).1 rfl,
   (availableWidth_render_behavior AWState.init 120).2.2.2⟩

theorem stepAW_width_isSome {s : AWState} {e : AWEvent}
    (h : s.width.isSome = true) : (stepAW s e).width.isSome = true := by
  cases e with
  | observe w =>
    unfold stepAW deliverResizeAW observerCallbackAW
    by_cases hc : s.observerConnected <;> simp [hc, h]
  | unmount => exact h

/-- Claim C8: in `AvailableWidth`, `state.width` is undefined only
before the first measurement: it starts undefined, `componentDidMount`
sets it to the measured width, and no later event (observer report or
unmount) ever returns it to undefined once it is set. -/
theorem width_undefined_only_before_first_measurement (w0 : Rat)
    (evs : List AWEvent) (s : AWState) (hsome : s.width.isSome = true) :
    AWState.init.width = none ∧
    (componentDidMountAW w0 AWState.init).width = some w0 ∧
    (runAW evs s).width.isSome = true := by
  refine ⟨rfl, rfl, ?_⟩
  induction evs generalizing s with
  | nil => exact hsome
  | cons e rest ih =>
    have hstep : runAW (e :: rest) s = runAW rest (stepAW s e) := rfl
    rw [hstep]
    exact ih _ (stepAW_width_isSome hsome)

/-- Witness for C8 at a concrete input: mount with measurement 50, then
an observer report of 60 followed by the unmount; the width stays
defined. -/
theorem width_undefined_only_before_first_measurement_witness :
    (runAW [AWEvent.observe 60, AWEvent.unmount]
        (componentDidMountAW 50 AWState.init)).width.isSome = true :=
  (width_undefined_only_before_first_measurement 50
    [AWEvent.observe 60, AWEvent.unmount]
    (componentDidMountAW 50 AWState.init) rfl).2.2

/-- Claim C7: after a component unmounts, its observers and listeners
are detached and no further state updates occur:
`AvailableWidth.componentWillUnmount` disconnects the resize observer
(so a subsequent width report is not delivered and leaves the state
unchanged), and `IntroRoute.componentWillUnmount` removes exactly the
resize and scroll window listeners that `componentDidMount` registered. -/
theorem unmount_detaches_observers (ls : List WinListener) (s : AWState)
    (w : Rat) (hr : WinListener.resizeHandler ∉ ls)
    (hs : WinListener.scrollHandler ∉ ls) :
    introWillUnmountListeners (introDidMountListeners ls) = ls ∧
    (componentWillUnmountAW s).observerConnected = false ∧
    deliverResizeAW w (componentWillUnmountAW s) = componentWillUnmountAW s := by
  refine ⟨?_, rfl, ?_⟩
  · have h1 : addEventListener WinListener.resizeHandler ls
        = ls ++ [WinListener.resizeHandler] := by
      unfold addEventListener
      rw [if_neg hr]
    have h2 : introDidMountListeners ls
        = ls ++ [WinListener.resizeHandler, WinListener.scrollHandler] := by
      unfold introDidMountListeners
      rw [h1]
      unfold addEventListener
      rw [if_neg (by simp [hs])]
      simp
    unfold introWillUnmountListeners removeEventListener
    rw [h2, List.erase_append_right _ hr, List.erase_cons_head,
      List.erase_append_right _ hs, List.erase_cons_head, List.append_nil]
  · simp [deliverResizeAW, componentWillUnmountAW]

/-- Witness for C7 at a concrete input: one unrelated listener survives
the mount/unmount pair untouched, and after unmount a width report of 7
does not change the `AvailableWidth` state. -/
theorem unmount_detaches_observers_witness :
    introWillUnmountListeners (introDidMountListeners [WinListener.other 0])
      = [WinListener.other 0] ∧
    (componentWillUnmountAW (componentDidMountAW 100 AWState.init)).observerConnected
      = false ∧
    deliverResizeAW 7 (componentWillUnmountAW (componentDidMountAW 100 AWState.init))
      = componentWillUnmountAW (componentDidMountAW 100 AWState.init) :=
  unmount_detaches_observers [WinListener.other 0]
    (componentDidMountAW 100 AWState.init) 7 (by decide) (by decide)

theorem debounceFires_gap {wait : Rat} {events : List Rat} {t1 t2 : Rat}
    (h1 : t1 ∈ debounceFires wait events)
    (h2 : t2 ∈ debounceFires wait events)
    (hlt : t1 < t2) : t1 + wait ≤ t2 := by
  unfold debounceFires at h1 h2
  obtain ⟨e1, he1, rfl⟩ := List.mem_map.mp h1
  obtain ⟨e2, he2, rfl⟩ := List.mem_map.mp h2
  obtain ⟨he1mem, he1quiet⟩ := List.mem_filter.mp he1
  obtain ⟨he2mem, -⟩ := List.mem_filter.mp he2
  have helt : e1 < e2 := by linarith
  have hq := List.all_eq_true.mp he1quiet e2 he2mem
  have hq' : ¬(e1 < e2 ∧ e2 < e1 + wait) := by
    intro hab
    rw [decide_eq_true hab.1, decide_eq_true hab.2] at hq
    exact absurd hq (by decide)
  have hge : ¬ e2 < e1 + wait := fun hb => hq' ⟨helt, hb⟩
  have := not_lt.mp hge
  linarith

/-- Claim C6: a handler debounced with the 500ms interval used by
`handleScroll` and `handleResize` executes its body at most once per
500ms window, regardless of how many raw events arrive: any two firing
times falling in a common half-open window of length
`DEBOUNCE_WAIT_MS` coincide. -/
theorem debounced_at_most_once_per_window (events : List Rat) (a t1 t2 : Rat)
    (h1 : t1 ∈ debounceFires DEBOUNCE_WAIT_MS events)
    (h2 : t2 ∈ debounceFires DEBOUNCE_WAIT_MS events)
    (ha1 : a ≤ t1) (hb1 : t1 < a + DEBOUNCE_WAIT_MS)
    (ha2 : a ≤ t2) (hb2 : t2 < a + DEBOUNCE_WAIT_MS) :
    t1 = t2 := by
  rcases lt_trichotomy t1 t2 with h | h | h
  · have := debounceFires_gap h1 h2 h
    linarith
  · exact h
  · have := debounceFires_gap h2 h1 h
    linarith

/-- Witness for C6 at a concrete input: raw events at 0ms and 100ms
produce a single firing at 600ms; applied to itself inside the window
starting at 600ms, the theorem yields the trivial equality. -/
theorem debounced_at_most_once_per_window_witness :
    (600 : Rat) ∈ debounceFires DEBOUNCE_WAIT_MS [0, 100] ∧ (600 : Rat) = 600 := by
  have hm : (600 : Rat) ∈ debounceFires DEBOUNCE_WAIT_MS [0, 100] := by
    norm_num [debounceFires, DEBOUNCE_WAIT_MS]
  exact ⟨hm, debounced_at_most_once_per_window [0, 100] 600 600 600 hm hm
    (le_refl _) (by norm_num [DEBOUNCE_WAIT_MS]) (le_refl _)
    (by norm_num [DEBOUNCE_WAIT_MS])⟩

end Waveforms
